import Mathlib

/-!
# Verification of the Sumsub proxy server (`src/server.ts`)

A shallow embedding of the backend proxy: the HMAC-SHA256 request signer
(`createSignature`), the authenticated-request helper
(`makeAuthenticatedRequest`), and the three HTTP handlers
(`/api/access-token`, `/api/refresh-token`, `/api/applicant/:applicantId`).

Bytes are `Nat` values below 256, 32-bit words are `Nat` values reduced
modulo `2^32`.  Nondeterministic inputs of the original code (the clock,
`Math.random`, the remote Sumsub API) become explicit parameters; each
handler returns its HTTP response together with the list of outbound
requests it issued, so that ordering and no-call properties are statable.
-/

namespace Sumsub

/-! ## SHA-256 (FIPS 180-4), on byte lists -/

/-- Reduce to a 32-bit word. -/
def w32 (x : Nat) : Nat := x % 4294967296

/-- Right rotation of a 32-bit word. -/
def rotr32 (n x : Nat) : Nat := w32 ((x >>> n) ||| (x <<< (32 - n)))

/-- Bitwise complement of a 32-bit word. -/
def not32 (x : Nat) : Nat := w32 (x ^^^ 4294967295)

/-- SHA-256 `Ch` function. -/
def shaCh (e f g : Nat) : Nat := (e &&& f) ^^^ (not32 e &&& g)

/-- SHA-256 `Maj` function. -/
def shaMaj (a b c : Nat) : Nat := (a &&& b) ^^^ (a &&& c) ^^^ (b &&& c)

/-- SHA-256 `Σ₀`. -/
def bigSigma0 (x : Nat) : Nat := rotr32 2 x ^^^ rotr32 13 x ^^^ rotr32 22 x

/-- SHA-256 `Σ₁`. -/
def bigSigma1 (x : Nat) : Nat := rotr32 6 x ^^^ rotr32 11 x ^^^ rotr32 25 x

/-- SHA-256 `σ₀`. -/
def smallSigma0 (x : Nat) : Nat := rotr32 7 x ^^^ rotr32 18 x ^^^ (x >>> 3)

/-- SHA-256 `σ₁`. -/
def smallSigma1 (x : Nat) : Nat := rotr32 17 x ^^^ rotr32 19 x ^^^ (x >>> 10)

/-- The 64 SHA-256 round constants. -/
def shaK : List Nat :=
  [1116352408, 1899447441, 3049323471, 3921009573, 961987163,
   1508970993, 2453635748, 2870763221, 3624381080, 310598401,
   607225278, 1426881987, 1925078388, 2162078206, 2614888103,
   3248222580, 3835390401, 4022224774, 264347078, 604807628,
   770255983, 1249150122, 1555081692, 1996064986, 2554220882,
   2821834349, 2952996808, 3210313671, 3336571891, 3584528711,
   113926993, 338241895, 666307205, 773529912, 1294757372,
   1396182291, 1695183700, 1986661051, 2177026350, 2456956037,
   2730485921, 2820302411, 3259730800, 3345764771, 3516065817,
   3600352804, 4094571909, 275423344, 430227734, 506948616,
   659060556, 883997877, 958139571, 1322822218, 1537002063,
   1747873779, 1955562222, 2024104815, 2227730452, 2361852424,
   2428436474, 2756734187, 3204031479, 3329325298]

/-- The SHA-256 initial hash value. -/
def shaH0 : List Nat :=
  [1779033703, 3144134277, 1013904242,
   2773480762, 1359893119, 2600822924,
   528734635, 1541459225]

/-- Big-endian bytes of a 32-bit word. -/
def be32 (n : Nat) : List Nat :=
  [(n >>> 24) &&& 255, (n >>> 16) &&& 255, (n >>> 8) &&& 255, n &&& 255]

/-- Big-endian bytes of a 64-bit length field. -/
def be64 (n : Nat) : List Nat :=
  [(n >>> 56) &&& 255, (n >>> 48) &&& 255, (n >>> 40) &&& 255, (n >>> 32) &&& 255,
   (n >>> 24) &&& 255, (n >>> 16) &&& 255, (n >>> 8) &&& 255, n &&& 255]

/-- Group bytes four at a time into big-endian 32-bit words. -/
def bytesToWords : List Nat → List Nat
  | b0 :: b1 :: b2 :: b3 :: rest =>
      ((b0 <<< 24) ||| (b1 <<< 16) ||| (b2 <<< 8) ||| b3) :: bytesToWords rest
  | _ => []

/-- Extend the 16-word message block by `n` further scheduled words. -/
def msgExtend : Nat → Array Nat → Array Nat
  | 0, ws => ws
  | n + 1, ws =>
      let s := ws.size
      let w := w32 (smallSigma1 (ws.getD (s - 2) 0) + ws.getD (s - 7) 0 +
                    smallSigma0 (ws.getD (s - 15) 0) + ws.getD (s - 16) 0)
      msgExtend n (ws.push w)

/-- The 64-entry message schedule of one block. -/
def scheduleWords (block : List Nat) : List Nat :=
  (msgExtend 48 (bytesToWords block).toArray).toList

/-- One pass of the SHA-256 compression loop over the `(k, w)` pairs. -/
def shaCompress : List Nat → List (Nat × Nat) → List Nat
  | st, [] => st
  | [a, b, c, d, e, f, g, h], (k, w) :: rest =>
      let t1 := w32 (h + bigSigma1 e + shaCh e f g + k + w)
      let t2 := w32 (bigSigma0 a + shaMaj a b c)
      shaCompress [w32 (t1 + t2), a, b, c, w32 (d + t1), e, f, g] rest
  | st, _ :: rest => shaCompress st rest

/-- Process one 64-byte block: compress and add into the chaining value. -/
def shaBlock (hs : List Nat) (block : List Nat) : List Nat :=
  let st := shaCompress hs (shaK.zip (scheduleWords block))
  (hs.zip st).map fun p => w32 (p.1 + p.2)

/-- SHA-256 padding: `0x80`, zeros to 56 mod 64, then the 64-bit bit length. -/
def shaPad (msg : List Nat) : List Nat :=
  let z := (119 - msg.length % 64) % 64
  msg ++ [0x80] ++ List.replicate z 0 ++ be64 (8 * msg.length)

/-- Split a byte list into 64-byte chunks (`fuel` bounds the recursion). -/
def chunk64 : Nat → List Nat → List (List Nat)
  | 0, _ => []
  | _, [] => []
  | fuel + 1, bytes => bytes.take 64 :: chunk64 fuel (bytes.drop 64)

/-- The SHA-256 digest (32 bytes) of a byte list. -/
def sha256 (msg : List Nat) : List Nat :=
  let padded := shaPad msg
  let final := (chunk64 padded.length padded).foldl shaBlock shaH0
  final.foldr (fun w acc => be32 w ++ acc) []

/-! ## HMAC-SHA256 and hex rendering -/

/-- HMAC-SHA256 (RFC 2104) with a 64-byte block size. -/
def hmacSha256 (key msg : List Nat) : List Nat :=
  let k0 := if 64 < key.length then sha256 key else key
  let kp := k0 ++ List.replicate (64 - k0.length) 0
  let ipad := kp.map fun b => b ^^^ 0x36
  let opad := kp.map fun b => b ^^^ 0x5c
  sha256 (opad ++ sha256 (ipad ++ msg))

/-- Lowercase hexadecimal digit for a value below 16. -/
def hexDigit (n : Nat) : Char :=
  if n < 10 then Char.ofNat (48 + n) else Char.ofNat (87 + n)

/-- Render bytes as lowercase hexadecimal, two digits per byte. -/
def bytesToHex (bs : List Nat) : String :=
  String.mk (bs.foldr (fun b acc => hexDigit (b / 16) :: hexDigit (b % 16) :: acc) [])

/-- UTF-8 encoding of one code point. -/
def utf8Bytes (c : Nat) : List Nat :=
  if c < 0x80 then [c]
  else if c < 0x800 then
    [0xc0 ||| (c >>> 6), 0x80 ||| (c &&& 0x3f)]
  else if c < 0x10000 then
    [0xe0 ||| (c >>> 12), 0x80 ||| ((c >>> 6) &&& 0x3f), 0x80 ||| (c &&& 0x3f)]
  else
    [0xf0 ||| (c >>> 18), 0x80 ||| ((c >>> 12) &&& 0x3f),
     0x80 ||| ((c >>> 6) &&& 0x3f), 0x80 ||| (c &&& 0x3f)]

/-- UTF-8 bytes of a string (what Node's `Hmac.update` hashes by default). -/
def strBytes (s : String) : List Nat :=
  s.data.foldr (fun c acc => utf8Bytes c.toNat ++ acc) []

/-- Node's `crypto.createHmac('sha256', key).update(msg).digest('hex')`. -/
def hmacSha256Hex (key msg : String) : String :=
  bytesToHex (hmacSha256 (strBytes key) (strBytes msg))

/-! ## JSON values and `JSON.stringify`

`Json` models the JavaScript values the server builds and relays: the
payload objects it sends upstream, the parsed upstream responses, and the
bodies of its own HTTP answers.  `undefined` is JavaScript's undefined, the
result of reading an absent object property. -/

inductive Json where
  | null
  | undefined
  | bool (b : Bool)
  | num (n : Int)
  | str (s : String)
  | arr (elems : List Json)
  | obj (fields : List (String × Json))

/-- JavaScript property access `j.k`: the field's value, `undefined` when the
key is absent or `j` is not an object. -/
def Json.getField (j : Json) (k : String) : Json :=
  match j with
  | .obj fields =>
      match fields.lookup k with
      | some v => v
      | none => .undefined
  | _ => .undefined

/-- JSON string escaping for one character, as `JSON.stringify` performs it. -/
def escChar (c : Char) : List Char :=
  if c = '"' then ['\\', '"']
  else if c = '\\' then ['\\', '\\']
  else if c = '\n' then ['\\', 'n']
  else if c = '\r' then ['\\', 'r']
  else if c = '\t' then ['\\', 't']
  else if c = '\x08' then ['\\', 'b']
  else if c = '\x0c' then ['\\', 'f']
  else if c.toNat < 32 then
    ['\\', 'u', '0', '0', hexDigit (c.toNat / 16), hexDigit (c.toNat % 16)]
  else [c]

/-- A JSON string literal: quotes around the escaped characters. -/
def jsonQuote (s : String) : String :=
  "\"" ++ String.mk (s.data.foldr (fun c acc => escChar c ++ acc) []) ++ "\""

mutual

/-- JavaScript's `JSON.stringify` on the fragment of JavaScript values the server
serializes (no `undefined` below an object the server builds). -/
def Json.stringify : Json → String
  | .null => "null"
  | .undefined => "undefined"
  | .bool true => "true"
  | .bool false => "false"
  | .num n => toString n
  | .str s => jsonQuote s
  | .arr es => "[" ++ stringifyElems es ++ "]"
  | .obj fs => "\x7b" ++ stringifyFields fs ++ "\x7d"

/-- Comma-separated serialization of array elements. -/
def stringifyElems : List Json → String
  | [] => ""
  | [j] => Json.stringify j
  | j :: rest => Json.stringify j ++ "," ++ stringifyElems rest

/-- Comma-separated serialization of object fields, in insertion order. -/
def stringifyFields : List (String × Json) → String
  | [] => ""
  | [(k, v)] => jsonQuote k ++ ":" ++ Json.stringify v
  | (k, v) :: rest => jsonQuote k ++ ":" ++ Json.stringify v ++ "," ++ stringifyFields rest

end

/-! ## Configuration and the Signer -/

/-- The environment-derived configuration read at startup:
`SUMSUB_APP_TOKEN`, `SUMSUB_SECRET_KEY`, `SUMSUB_LEVEL_NAME` (each possibly
absent). -/
structure Config where
  appToken : Option String
  secretKey : Option String
  levelNameEnv : Option String
deriving DecidableEq

/-- JavaScript truthiness of a `string | undefined` value: `undefined` and
`\"\"` are falsy. -/
def jsTruthy : Option String → Bool
  | none => false
  | some s => !s.isEmpty

/-- JavaScript `v || d` on a `string | undefined` value `v`. -/
def jsOrElse (v : Option String) (d : String) : String :=
  if jsTruthy v then v.getD "" else d

/-- The constant `LEVEL_NAME = process.env.SUMSUB_LEVEL_NAME || 'basic-kyc-level'`. -/
def LEVEL_NAME (env : Option String) : String :=
  jsOrElse env "basic-kyc-level"

/-- The configured default verification level. -/
def Config.levelName (cfg : Config) : String :=
  LEVEL_NAME cfg.levelNameEnv

/-- JavaScript `s.toUpperCase()` on the ASCII strings the server uses:
uppercase each character. -/
def jsToUpper (s : String) : String := String.mk (s.data.map Char.toUpper)

/-- The Signer `createSignature(timestamp, method, path, body)`: throws when
`SECRET_KEY` is falsy, otherwise the lowercase-hex HMAC-SHA256 of
`timestamp + method.toUpperCase() + path + body` under the secret. -/
def createSignature (secretKey : Option String)
    (timestamp method path body : String) : Except String String :=
  if !jsTruthy secretKey then .error "SUMSUB_SECRET_KEY is not configured"
  else
    .ok (hmacSha256Hex (secretKey.getD "")
          (timestamp ++ jsToUpper method ++ path ++ body))

/-! ## The authenticated-request helper -/

/-- The authentication headers attached to every outbound request. -/
structure RequestHeaders where
  xAppToken : String
  xAppAccessTs : String
  xAppAccessSig : String
deriving DecidableEq

/-- One outbound HTTP request to the Sumsub API: method, path, headers, and
the transmitted body (`none` when the `fetch` body is `undefined`). -/
structure UpstreamCall where
  method : String
  path : String
  headers : RequestHeaders
  body : Option String
deriving DecidableEq

/-- What `fetch` produces for one outbound request: a parsed JSON body on a
2xx response, a non-ok status with its error text, or a thrown transport
error. -/
inductive FetchResult where
  | success (json : Json)
  | httpError (status : Nat) (text : String)
  | thrown (msg : String)

/-- The remote Sumsub API, as an oracle from outbound requests to results. -/
def Upstream := UpstreamCall → FetchResult

/-- The helper `makeAuthenticatedRequest(method, path, body)` at clock second `now`:
checks the app token, serializes the body, signs, and performs one `fetch`.
Returns the result together with the outbound requests actually issued
(empty when a configuration error throws before the `fetch`). -/
def makeAuthenticatedRequest (cfg : Config) (now : Nat) (upstream : Upstream)
    (method path : String) (body : Option Json) :
    Except String Json × List UpstreamCall :=
  if !jsTruthy cfg.appToken then
    (.error "SUMSUB_APP_TOKEN is not configured", [])
  else
    let timestamp := Nat.repr now
    let bodyString := match body with
      | some b => b.stringify
      | none => ""
    match createSignature cfg.secretKey timestamp method path bodyString with
    | .error e => (.error e, [])
    | .ok sig =>
      let call : UpstreamCall :=
        { method := method
          path := path
          headers :=
            { xAppToken := cfg.appToken.getD ""
              xAppAccessTs := timestamp
              xAppAccessSig := sig }
          body := match body with
            | some b => some b.stringify
            | none => none }
      match upstream call with
      | .success j => (.ok j, [call])
      | .httpError status text =>
          (.error ("Sumsub API error: " ++ Nat.repr status ++ " " ++ text), [call])
      | .thrown msg => (.error msg, [call])

/-! ## The three HTTP handlers -/

/-- The JSON body of a `POST /api/access-token` or `POST /api/refresh-token`
request, after destructuring (`undefined` for absent properties). -/
structure AccessTokenRequestBody where
  userId : Option String
  levelName : Option String
deriving DecidableEq

/-- An HTTP response produced by a handler: status code and JSON body. -/
structure HttpResult where
  status : Nat
  body : Json

/-- The nondeterministic environment one access-token request observes:
`Date.now()` in milliseconds when the identifier is derived,
`Math.random().toString(36).substring(2, 8)`, and the clock second at each
of the two outbound requests. -/
structure AccessTokenEffects where
  nowMs : Nat
  randSuffix : String
  ts1 : Nat
  ts2 : Nat

/-- The derived per-session identifier
`` `${userId}_${Date.now()}_${Math.random().toString(36).substring(2, 8)}` ``. -/
def uniqueUserId (userId : String) (nowMs : Nat) (randSuffix : String) : String :=
  userId ++ "_" ++ Nat.repr nowMs ++ "_" ++ randSuffix

/-- The 400 body for a missing user id. -/
def userIdRequiredBody : Json := .obj [("error", .str "userId is required")]

/-- The 500 body of the access-token handler, `details` from the caught error. -/
def accessTokenFailureBody (details : String) : Json :=
  .obj [("error", .str "Failed to generate access token"), ("details", .str details)]

/-- The `POST /api/access-token` handler: validate `userId`, derive the
per-session identifier, create an applicant, then mint an SDK token, and
answer `{token, applicantId, userId}`.  Returns the response together with
the outbound requests issued, in order. -/
def accessTokenHandler (cfg : Config) (eff : AccessTokenEffects)
    (upstream : Upstream) (req : AccessTokenRequestBody) :
    HttpResult × List UpstreamCall :=
  if !jsTruthy req.userId then
    ({ status := 400, body := userIdRequiredBody }, [])
  else
    let userId := req.userId.getD ""
    let selectedLevel := jsOrElse req.levelName (LEVEL_NAME cfg.levelNameEnv)
    let uid := uniqueUserId userId eff.nowMs eff.randSuffix
    let applicantRequest : Json := .obj [("externalUserId", .str uid)]
    match makeAuthenticatedRequest cfg eff.ts1 upstream "POST"
        ("/resources/applicants?levelName=" ++ selectedLevel)
        (some applicantRequest) with
    | (.error e, calls1) =>
        ({ status := 500, body := accessTokenFailureBody e }, calls1)
    | (.ok applicantResponse, calls1) =>
        let applicantId := applicantResponse.getField "id"
        let tokenRequest : Json := .obj
          [("userId", .str uid), ("levelName", .str selectedLevel),
           ("ttlInSecs", .num 1200)]
        match makeAuthenticatedRequest cfg eff.ts2 upstream "POST"
            "/resources/accessTokens/sdk" (some tokenRequest) with
        | (.error e, calls2) =>
            ({ status := 500, body := accessTokenFailureBody e }, calls1 ++ calls2)
        | (.ok tokenResponse, calls2) =>
            ({ status := 200,
               body := .obj
                 [("token", tokenResponse.getField "token"),
                  ("applicantId", applicantId),
                  ("userId", .str uid)] },
             calls1 ++ calls2)

/-- The 500 body of the refresh-token handler. -/
def refreshFailureBody (details : String) : Json :=
  .obj [("error", .str "Failed to refresh access token"), ("details", .str details)]

/-- The `POST /api/refresh-token` handler: validate `userId`, mint an SDK
token under the configured default level with an explicit empty
`applicantIdentifiers`, and answer `{token, userId}`. -/
def refreshTokenHandler (cfg : Config) (ts : Nat) (upstream : Upstream)
    (req : AccessTokenRequestBody) : HttpResult × List UpstreamCall :=
  if !jsTruthy req.userId then
    ({ status := 400, body := userIdRequiredBody }, [])
  else
    let userId := req.userId.getD ""
    let tokenRequest : Json := .obj
      [("userId", .str userId), ("levelName", .str (LEVEL_NAME cfg.levelNameEnv)),
       ("ttlInSecs", .num 1200), ("applicantIdentifiers", .obj [])]
    match makeAuthenticatedRequest cfg ts upstream "POST"
        "/resources/accessTokens/sdk" (some tokenRequest) with
    | (.error e, calls) =>
        ({ status := 500, body := refreshFailureBody e }, calls)
    | (.ok tokenResponse, calls) =>
        ({ status := 200,
           body := .obj
             [("token", tokenResponse.getField "token"),
              ("userId", .str userId)] },
         calls)

/-- The 500 body of the applicant-status handler. -/
def applicantFailureBody (details : String) : Json :=
  .obj [("error", .str "Failed to fetch applicant"), ("details", .str details)]

/-- The `GET /api/applicant/:applicantId` handler: one signed GET to
`/resources/applicants/{id}/one`, relaying the JSON response. -/
def applicantStatusHandler (cfg : Config) (ts : Nat) (upstream : Upstream)
    (applicantId : String) : HttpResult × List UpstreamCall :=
  match makeAuthenticatedRequest cfg ts upstream "GET"
      ("/resources/applicants/" ++ applicantId ++ "/one") none with
  | (.error e, calls) =>
      ({ status := 500, body := applicantFailureBody e }, calls)
  | (.ok j, calls) => ({ status := 200, body := j }, calls)

/-! ## Derived definitions, decimal digits, and witness fixtures -/

/-- The decimal digit characters of a number, most significant first. -/
def natDigits (n : Nat) : List Char :=
  if h : n < 10 then [Nat.digitChar n]
  else natDigits (n / 10) ++ [Nat.digitChar (n % 10)]
termination_by n
decreasing_by
  simp_wf
  omega

/-- Read a decimal digit string back as a number. -/
def digitsVal (l : List Char) : Nat :=
  l.foldl (fun a c => 10 * a + (c.toNat - 48)) 0

/-- The one outbound request `makeAuthenticatedRequest` issues when both
credentials are configured. -/
def signedCall (cfg : Config) (now : Nat) (method path : String)
    (body : Option Json) : UpstreamCall :=
  { method := method
    path := path
    headers :=
      { xAppToken := cfg.appToken.getD ""
        xAppAccessTs := Nat.repr now
        xAppAccessSig := hmacSha256Hex (cfg.secretKey.getD "")
          (Nat.repr now ++ jsToUpper method ++ path ++ (body.map Json.stringify).getD "") }
    body := body.map Json.stringify }

/-- The error message built from a non-ok upstream response. -/
def fetchErrText (status : Nat) (text : String) : String :=
  "Sumsub API error: " ++ Nat.repr status ++ " " ++ text

/-- The `selectedLevel` local of the access-token handler:
`levelName || LEVEL_NAME`. -/
def atSelectedLevel (cfg : Config) (req : AccessTokenRequestBody) : String :=
  jsOrElse req.levelName (LEVEL_NAME cfg.levelNameEnv)

/-- The `uniqueUserId` local of the access-token handler. -/
def atUid (eff : AccessTokenEffects) (req : AccessTokenRequestBody) : String :=
  uniqueUserId (req.userId.getD "") eff.nowMs eff.randSuffix

/-- The applicant-creation request of the access-token handler. -/
def atCall1 (cfg : Config) (eff : AccessTokenEffects)
    (req : AccessTokenRequestBody) : UpstreamCall :=
  signedCall cfg eff.ts1 "POST"
    ("/resources/applicants?levelName=" ++ atSelectedLevel cfg req)
    (some (.obj [("externalUserId", .str (atUid eff req))]))

/-- The token-minting request of the access-token handler. -/
def atCall2 (cfg : Config) (eff : AccessTokenEffects)
    (req : AccessTokenRequestBody) : UpstreamCall :=
  signedCall cfg eff.ts2 "POST" "/resources/accessTokens/sdk"
    (some (.obj [("userId", .str (atUid eff req)),
                 ("levelName", .str (atSelectedLevel cfg req)),
                 ("ttlInSecs", .num 1200)]))

/-- The token-minting request of the refresh-token handler. -/
def rfCall (cfg : Config) (ts : Nat) (req : AccessTokenRequestBody) : UpstreamCall :=
  signedCall cfg ts "POST" "/resources/accessTokens/sdk"
    (some (.obj [("userId", .str (req.userId.getD "")),
                 ("levelName", .str (LEVEL_NAME cfg.levelNameEnv)),
                 ("ttlInSecs", .num 1200),
                 ("applicantIdentifiers", .obj [])]))

/-- The lookup request of the applicant-status handler. -/
def stCall (cfg : Config) (ts : Nat) (applicantId : String) : UpstreamCall :=
  signedCall cfg ts "GET" ("/resources/applicants/" ++ applicantId ++ "/one") none

/-- The `message` local of `createSignature`:
`timestamp + method.toUpperCase() + path + body`. -/
def signingMessage (timestamp method path body : String) : String :=
  timestamp ++ jsToUpper method ++ path ++ body

/-- A sample configuration for the concrete witnesses. -/
def cfgEx : Config := ⟨some "app-token-ex", some "secret-key-ex", none⟩

/-- A sample request environment for the concrete witnesses. -/
def effEx : AccessTokenEffects := ⟨1700000000000, "a1b2c3", 1700000000, 1700000001⟩

/-- A second sample request environment, for the uniqueness witness. -/
def effEx2 : AccessTokenEffects := ⟨1700000000001, "z9y8x7", 1700000002, 1700000003⟩

/-- An always-successful stub of the remote API: token minting answers a
token, every other request answers a subject id. -/
def stubUpstream : Upstream := fun c =>
  if c.path = "/resources/accessTokens/sdk" then
    .success (.obj [("token", .str "tok_xyz")])
  else
    .success (.obj [("id", .str "sub_1")])

/-- A stub of the remote API that fails every request. -/
def failStub : Upstream := fun _ => .httpError 502 "bad gateway"

/-! ## String and decimal-representation lemmas -/

theorem strAppendCancelLeft {a b c : String} (h : a ++ b = a ++ c) : b = c := by
  have hd := congrArg String.data h
  simp only [String.data_append] at hd
  exact String.ext (List.append_cancel_left hd)

theorem strAppendCancelRight {a b c : String} (h : a ++ c = b ++ c) : a = b := by
  have hd := congrArg String.data h
  simp only [String.data_append] at hd
  exact String.ext (List.append_cancel_right hd)

theorem sepSplit (l1 : List Char) : ∀ (l2 r1 r2 : List Char),
    l1 ++ '_' :: r1 = l2 ++ '_' :: r2 → '_' ∉ l1 → '_' ∉ l2 →
    l1 = l2 ∧ r1 = r2 := by
  induction l1 with
  | nil =>
    intro l2 r1 r2 h h1 h2
    cases l2 with
    | nil => refine ⟨rfl, ?_⟩; simpa using h
    | cons c l2 =>
      simp only [List.nil_append, List.cons_append, List.cons.injEq] at h
      exact absurd (by rw [← h.1]; exact List.mem_cons_self _ _) h2
  | cons a l1 ih =>
    intro l2 r1 r2 h h1 h2
    cases l2 with
    | nil =>
      simp only [List.cons_append, List.nil_append, List.cons.injEq] at h
      exact absurd (by rw [h.1]; exact List.mem_cons_self _ _) h1
    | cons c l2 =>
      simp only [List.cons_append, List.cons.injEq] at h
      have hr := ih l2 r1 r2 h.2
        (fun hm => h1 (List.mem_cons_of_mem _ hm))
        (fun hm => h2 (List.mem_cons_of_mem _ hm))
      exact ⟨by rw [h.1, hr.1], hr.2⟩

theorem digitChar_toNat {d : Nat} (h : d < 10) : (Nat.digitChar d).toNat = 48 + d := by
  interval_cases d <;> rfl

theorem digitChar_ne_underscore {d : Nat} (h : d < 10) : Nat.digitChar d ≠ '_' := by
  interval_cases d <;> decide

theorem natDigits_val (n : Nat) : digitsVal (natDigits n) = n := by
  induction n using Nat.strong_induction_on with
  | _ n ih =>
    unfold natDigits
    by_cases h : n < 10
    · rw [dif_pos h]
      simp only [digitsVal, List.foldl]
      rw [digitChar_toNat h]
      omega
    · rw [dif_neg h]
      have hdiv : n / 10 < n := Nat.div_lt_self (by omega) (by omega)
      have hmod : n % 10 < 10 := Nat.mod_lt _ (by omega)
      simp only [digitsVal, List.foldl_append, List.foldl]
      have := ih (n / 10) hdiv
      simp only [digitsVal] at this
      rw [this, digitChar_toNat hmod]
      omega

theorem natDigits_ne_underscore (n : Nat) : '_' ∉ natDigits n := by
  induction n using Nat.strong_induction_on with
  | _ n ih =>
    unfold natDigits
    by_cases h : n < 10
    · rw [dif_pos h]
      intro hm
      rw [List.mem_singleton] at hm
      exact digitChar_ne_underscore h hm.symm
    · rw [dif_neg h]
      intro hm
      rcases List.mem_append.mp hm with hm | hm
      · exact ih (n / 10) (Nat.div_lt_self (by omega) (by omega)) hm
      · rw [List.mem_singleton] at hm
        exact digitChar_ne_underscore (Nat.mod_lt _ (by omega)) hm.symm

theorem toDigitsCore_eq (f : Nat) : ∀ (n : Nat) (l : List Char), n < f →
    Nat.toDigitsCore 10 f n l = natDigits n ++ l := by
  induction f with
  | zero => intro n l h; omega
  | succ f ih =>
    intro n l h
    simp only [Nat.toDigitsCore]
    by_cases h10 : n / 10 = 0
    · rw [if_pos h10]
      have hn : n < 10 := by omega
      unfold natDigits
      rw [dif_pos hn, Nat.mod_eq_of_lt hn]
      rfl
    · rw [if_neg h10]
      have hlt : n / 10 < f := by
        have hself : n / 10 < n := Nat.div_lt_self (by omega) (by omega)
        omega
      rw [ih (n / 10) (Nat.digitChar (n % 10) :: l) hlt]
      conv_rhs => unfold natDigits
      rw [dif_neg (show ¬ n < 10 by omega)]
      simp [List.append_assoc]

theorem natRepr_data (n : Nat) : (Nat.repr n).data = natDigits n := by
  show (Nat.toDigitsCore 10 (n + 1) n []).asString.data = natDigits n
  rw [toDigitsCore_eq (n + 1) n [] (Nat.lt_succ_self n)]
  simp [List.asString]

theorem natRepr_inj {m n : Nat} (h : Nat.repr m = Nat.repr n) : m = n := by
  have hd := congrArg String.data h
  rw [natRepr_data, natRepr_data] at hd
  have := congrArg digitsVal hd
  rwa [natDigits_val, natDigits_val] at this

theorem natRepr_ne_underscore (n : Nat) : '_' ∉ (Nat.repr n).data := by
  rw [natRepr_data]
  exact natDigits_ne_underscore n

theorem uniqueUserId_inj {u : String} {n1 n2 : Nat} {r1 r2 : String}
    (h : uniqueUserId u n1 r1 = uniqueUserId u n2 r2)
    (h1 : '_' ∉ r1.data) (h2 : '_' ∉ r2.data) : n1 = n2 ∧ r1 = r2 := by
  unfold uniqueUserId at h
  have hd := congrArg String.data h
  have hu : ("_" : String).data = ['_'] := rfl
  simp only [String.data_append, hu, List.append_assoc, List.singleton_append] at hd
  have htail := List.append_cancel_left hd
  injection htail with _ htail
  have hs := sepSplit _ _ _ _ htail (natRepr_ne_underscore n1) (natRepr_ne_underscore n2)
  exact ⟨natRepr_inj (String.ext hs.1), String.ext hs.2⟩

theorem jsTruthy_some {s : String} (h : s ≠ "") : jsTruthy (some s) = true := by
  simp only [jsTruthy, Bool.not_eq_true']
  rw [← Bool.not_eq_true, String.isEmpty_iff]
  exact h

/-! ## Characterizations of the request helper and the handlers -/

theorem mar_configured (cfg : Config) (now : Nat) (up : Upstream)
    (m p : String) (b : Option Json)
    (hA : jsTruthy cfg.appToken = true) (hS : jsTruthy cfg.secretKey = true) :
    makeAuthenticatedRequest cfg now up m p b =
      match up (signedCall cfg now m p b) with
      | .success j => (.ok j, [signedCall cfg now m p b])
      | .httpError st txt =>
          (.error ("Sumsub API error: " ++ Nat.repr st ++ " " ++ txt),
           [signedCall cfg now m p b])
      | .thrown msg => (.error msg, [signedCall cfg now m p b]) := by
  cases b <;>
    simp only [makeAuthenticatedRequest, createSignature, signedCall, hA, hS,
      Bool.not_true, Bool.false_eq_true, if_false, Option.map_none', Option.map_some',
      Option.getD_none, Option.getD_some] <;>
    rfl

theorem mar_error (cfg : Config) (now : Nat) (up : Upstream)
    (m p : String) (b : Option Json)
    (h : jsTruthy cfg.appToken = false ∨ jsTruthy cfg.secretKey = false) :
    ∃ e, makeAuthenticatedRequest cfg now up m p b = (.error e, []) := by
  by_cases hA : jsTruthy cfg.appToken = true
  · have hS : jsTruthy cfg.secretKey = false := by
      rcases h with h | h
      · rw [hA] at h; cases h
      · exact h
    refine ⟨"SUMSUB_SECRET_KEY is not configured", ?_⟩
    simp [makeAuthenticatedRequest, createSignature, hA, hS]
  · simp only [Bool.not_eq_true] at hA
    refine ⟨"SUMSUB_APP_TOKEN is not configured", ?_⟩
    simp [makeAuthenticatedRequest, hA]

theorem accessToken_shape (cfg : Config) (eff : AccessTokenEffects)
    (up : Upstream) (req : AccessTokenRequestBody)
    (hu : jsTruthy req.userId = true)
    (hA : jsTruthy cfg.appToken = true) (hS : jsTruthy cfg.secretKey = true) :
    accessTokenHandler cfg eff up req =
      match up (atCall1 cfg eff req) with
      | .httpError st txt =>
          ({ status := 500,
             body := accessTokenFailureBody (fetchErrText st txt) },
           [atCall1 cfg eff req])
      | .thrown msg =>
          ({ status := 500, body := accessTokenFailureBody msg },
           [atCall1 cfg eff req])
      | .success j1 =>
        match up (atCall2 cfg eff req) with
        | .success j2 =>
            ({ status := 200,
               body := .obj
                 [("token", j2.getField "token"),
                  ("applicantId", j1.getField "id"),
                  ("userId", .str (atUid eff req))] },
             [atCall1 cfg eff req, atCall2 cfg eff req])
        | .httpError st txt =>
            ({ status := 500,
               body := accessTokenFailureBody (fetchErrText st txt) },
             [atCall1 cfg eff req, atCall2 cfg eff req])
        | .thrown msg =>
            ({ status := 500, body := accessTokenFailureBody msg },
             [atCall1 cfg eff req, atCall2 cfg eff req]) := by
  unfold accessTokenHandler
  unfold atCall1 atCall2 atSelectedLevel atUid fetchErrText
  rw [hu]
  simp only [Bool.not_true, Bool.false_eq_true, if_false]
  rw [mar_configured cfg eff.ts1 up _ _ _ hA hS]
  cases up (signedCall cfg eff.ts1 "POST"
      ("/resources/applicants?levelName=" ++
        jsOrElse req.levelName (LEVEL_NAME cfg.levelNameEnv))
      (some (.obj [("externalUserId",
        .str (uniqueUserId (req.userId.getD "") eff.nowMs eff.randSuffix))]))) with
  | success j1 =>
    simp only
    rw [mar_configured cfg eff.ts2 up _ _ _ hA hS]
    cases up (signedCall cfg eff.ts2 "POST" "/resources/accessTokens/sdk"
        (some (.obj
          [("userId", .str (uniqueUserId (req.userId.getD "") eff.nowMs eff.randSuffix)),
           ("levelName", .str (jsOrElse req.levelName (LEVEL_NAME cfg.levelNameEnv))),
           ("ttlInSecs", .num 1200)]))) <;> rfl
  | httpError st txt => rfl
  | thrown msg => rfl

theorem refresh_shape (cfg : Config) (ts : Nat) (up : Upstream)
    (req : AccessTokenRequestBody)
    (hu : jsTruthy req.userId = true)
    (hA : jsTruthy cfg.appToken = true) (hS : jsTruthy cfg.secretKey = true) :
    refreshTokenHandler cfg ts up req =
      match up (rfCall cfg ts req) with
      | .success j =>
          ({ status := 200,
             body := .obj [("token", j.getField "token"),
                           ("userId", .str (req.userId.getD ""))] },
           [rfCall cfg ts req])
      | .httpError st txt =>
          ({ status := 500,
             body := refreshFailureBody (fetchErrText st txt) },
           [rfCall cfg ts req])
      | .thrown msg =>
          ({ status := 500, body := refreshFailureBody msg },
           [rfCall cfg ts req]) := by
  unfold refreshTokenHandler
  unfold rfCall fetchErrText
  rw [hu]
  simp only [Bool.not_true, Bool.false_eq_true, if_false]
  rw [mar_configured cfg ts up _ _ _ hA hS]
  cases up (signedCall cfg ts "POST" "/resources/accessTokens/sdk"
      (some (.obj [("userId", .str (req.userId.getD "")),
                   ("levelName", .str (LEVEL_NAME cfg.levelNameEnv)),
                   ("ttlInSecs", .num 1200),
                   ("applicantIdentifiers", .obj [])]))) <;> rfl

theorem status_shape (cfg : Config) (ts : Nat) (up : Upstream)
    (applicantId : String)
    (hA : jsTruthy cfg.appToken = true) (hS : jsTruthy cfg.secretKey = true) :
    applicantStatusHandler cfg ts up applicantId =
      match up (stCall cfg ts applicantId) with
      | .success j => ({ status := 200, body := j }, [stCall cfg ts applicantId])
      | .httpError st txt =>
          ({ status := 500,
             body := applicantFailureBody (fetchErrText st txt) },
           [stCall cfg ts applicantId])
      | .thrown msg =>
          ({ status := 500, body := applicantFailureBody msg },
           [stCall cfg ts applicantId]) := by
  unfold applicantStatusHandler
  unfold stCall fetchErrText
  rw [mar_configured cfg ts up _ _ _ hA hS]
  cases up (signedCall cfg ts "GET"
      ("/resources/applicants/" ++ applicantId ++ "/one") none) <;> rfl

theorem accessToken_unconfigured (cfg : Config) (eff : AccessTokenEffects)
    (up : Upstream) (req : AccessTokenRequestBody)
    (h : jsTruthy cfg.appToken = false ∨ jsTruthy cfg.secretKey = false) :
    (accessTokenHandler cfg eff up req).2 = [] ∧
    ((accessTokenHandler cfg eff up req).1.status = 400 ∨
     (accessTokenHandler cfg eff up req).1.status = 500) := by
  by_cases hu : jsTruthy req.userId = true
  · obtain ⟨e, hme⟩ := mar_error cfg eff.ts1 up "POST"
      ("/resources/applicants?levelName=" ++
        jsOrElse req.levelName (LEVEL_NAME cfg.levelNameEnv))
      (some (.obj [("externalUserId",
        .str (uniqueUserId (req.userId.getD "") eff.nowMs eff.randSuffix))])) h
    unfold accessTokenHandler
    rw [hu]
    simp only [Bool.not_true, Bool.false_eq_true, if_false]
    rw [hme]
    exact ⟨rfl, Or.inr rfl⟩
  · simp only [Bool.not_eq_true] at hu
    unfold accessTokenHandler
    rw [hu]
    exact ⟨rfl, Or.inl rfl⟩

theorem accessToken_ok_config (cfg : Config) (eff : AccessTokenEffects)
    (up : Upstream) (req : AccessTokenRequestBody)
    (hs : (accessTokenHandler cfg eff up req).1.status = 200) :
    jsTruthy req.userId = true ∧ jsTruthy cfg.appToken = true ∧
    jsTruthy cfg.secretKey = true := by
  by_cases hu : jsTruthy req.userId = true
  · by_cases hA : jsTruthy cfg.appToken = true
    · by_cases hS : jsTruthy cfg.secretKey = true
      · exact ⟨hu, hA, hS⟩
      · simp only [Bool.not_eq_true] at hS
        obtain ⟨-, h4 | h5⟩ := accessToken_unconfigured cfg eff up req (Or.inr hS)
        · rw [h4] at hs; cases hs
        · rw [h5] at hs; cases hs
    · simp only [Bool.not_eq_true] at hA
      obtain ⟨-, h4 | h5⟩ := accessToken_unconfigured cfg eff up req (Or.inl hA)
      · rw [h4] at hs; cases hs
      · rw [h5] at hs; cases hs
  · simp only [Bool.not_eq_true] at hu
    have h400 : accessTokenHandler cfg eff up req = (⟨400, userIdRequiredBody⟩, []) := by
      unfold accessTokenHandler
      rw [hu]
      rfl
    rw [h400] at hs
    cases hs

/-! ## Witness fixtures and the signed message -/

/-! ## The claims -/

/-- C1: for every timestamp string, HTTP method, path and body string, with a
configured (non-empty) secret, the Signer returns exactly the lowercase-hex
rendering (`bytesToHex`) of HMAC-SHA256 keyed by the secret over the
concatenation `timestamp ++ jsToUpper method ++ path ++ body`. -/
theorem signer_contract (key timestamp method path body : String)
    (h : key ≠ "") :
    createSignature (some key) timestamp method path body =
      .ok (bytesToHex (hmacSha256 (strBytes key)
        (strBytes (timestamp ++ jsToUpper method ++ path ++ body)))) := by
  unfold createSignature
  rw [jsTruthy_some h]
  rfl

/-- Witness for C1 at a concrete secret, timestamp, method, path and body. -/
theorem signer_contract_witness :
    ("secret-key-ex" : String) ≠ "" ∧
    createSignature (some "secret-key-ex") "1700000000" "post"
        "/resources/accessTokens/sdk" "\x7b\x7d" =
      .ok (bytesToHex (hmacSha256 (strBytes "secret-key-ex")
        (strBytes ("1700000000" ++ jsToUpper "post" ++
          "/resources/accessTokens/sdk" ++ "\x7b\x7d")))) :=
  ⟨by decide, signer_contract "secret-key-ex" "1700000000" "post"
    "/resources/accessTokens/sdk" "\x7b\x7d" (by decide)⟩

/-- C8 as stated is false: the Signer uppercases the method before hashing,
so changing the method input from "get" to "GET" leaves the signature
unchanged — a change of one input that does not change the signature. -/
theorem signer_method_case_counterexample :
    ("get" : String) ≠ "GET" ∧
    createSignature (some "secret-key-ex") "1700000000" "get"
        "/resources/applicants/x/one" "" =
      createSignature (some "secret-key-ex") "1700000000" "GET"
        "/resources/applicants/x/one" "" := by
  constructor
  · decide
  · have h : jsToUpper "get" = jsToUpper "GET" := by decide
    unfold createSignature
    rw [h]

/-- C8 (amended): the Signer is deterministic (a pure function of its
inputs), methods agreeing up to uppercasing yield the identical signature,
and changing exactly one of timestamp, path or body always changes the
message over which the HMAC is computed (hence the signature, short of an
HMAC-SHA256 collision); a case-only change of the method never does. -/
theorem signer_deterministic_message (key ts ts2 m m2 p p2 b b2 : String)
    (hm : jsToUpper m = jsToUpper m2) (hts : ts ≠ ts2) (hp : p ≠ p2)
    (hb : b ≠ b2) :
    createSignature (some key) ts m p b = createSignature (some key) ts m p b ∧
    createSignature (some key) ts m p b = createSignature (some key) ts m2 p b ∧
    signingMessage ts m p b ≠ signingMessage ts2 m p b ∧
    signingMessage ts m p b ≠ signingMessage ts m p2 b ∧
    signingMessage ts m p b ≠ signingMessage ts m p b2 := by
  refine ⟨rfl, ?_, ?_, ?_, ?_⟩
  · unfold createSignature
    rw [hm]
  · intro h
    unfold signingMessage at h
    exact hts (strAppendCancelRight (strAppendCancelRight (strAppendCancelRight h)))
  · intro h
    unfold signingMessage at h
    exact hp (strAppendCancelLeft (strAppendCancelRight h))
  · intro h
    unfold signingMessage at h
    exact hb (strAppendCancelLeft h)

/-- Witness for the amended C8 at concrete inputs. -/
theorem signer_deterministic_message_witness :
    createSignature (some "secret-key-ex") "1700000000" "get" "/a" "x" =
      createSignature (some "secret-key-ex") "1700000000" "get" "/a" "x" ∧
    createSignature (some "secret-key-ex") "1700000000" "get" "/a" "x" =
      createSignature (some "secret-key-ex") "1700000000" "GET" "/a" "x" ∧
    signingMessage "1700000000" "get" "/a" "x" ≠
      signingMessage "1700000001" "get" "/a" "x" ∧
    signingMessage "1700000000" "get" "/a" "x" ≠
      signingMessage "1700000000" "get" "/b" "x" ∧
    signingMessage "1700000000" "get" "/a" "x" ≠
      signingMessage "1700000000" "get" "/a" "y" :=
  signer_deterministic_message "secret-key-ex" "1700000000" "1700000001"
    "get" "GET" "/a" "/b" "x" "y" (by decide) (by decide) (by decide) (by decide)

/-- C4: a missing or empty userId makes both the access-token and the
refresh-token handler answer 400 with body `error: userId is required`,
issuing zero outbound requests. -/
theorem missing_userId_rejected (cfg : Config) (eff : AccessTokenEffects)
    (ts : Nat) (up : Upstream) (req : AccessTokenRequestBody)
    (h : jsTruthy req.userId = false) :
    accessTokenHandler cfg eff up req =
      ({ status := 400, body := .obj [("error", .str "userId is required")] }, []) ∧
    refreshTokenHandler cfg ts up req =
      ({ status := 400, body := .obj [("error", .str "userId is required")] }, []) := by
  refine ⟨?_, ?_⟩
  · unfold accessTokenHandler
    rw [h]
    rfl
  · unfold refreshTokenHandler
    rw [h]
    rfl

/-- Witness for C4: an absent userId, against the sample config and stub. -/
theorem missing_userId_rejected_witness :
    jsTruthy (none : Option String) = false ∧
    (accessTokenHandler cfgEx effEx stubUpstream ⟨none, none⟩ =
      ({ status := 400, body := .obj [("error", .str "userId is required")] }, []) ∧
    refreshTokenHandler cfgEx 1700000000 stubUpstream ⟨none, none⟩ =
      ({ status := 400, body := .obj [("error", .str "userId is required")] }, [])) :=
  ⟨rfl, missing_userId_rejected cfgEx effEx 1700000000 stubUpstream ⟨none, none⟩ rfl⟩

/-- C10: whenever `makeAuthenticatedRequest` issues an outbound request, the
transmitted body is the JSON serialization of the passed body (absent when
no body was passed), and the attached signature is exactly the Signer output
over the transmitted body string (empty when absent) together with the
transmitted timestamp, method and path. -/
theorem signature_covers_transmitted_body (cfg : Config) (now : Nat)
    (up : Upstream) (m p : String) (b : Option Json) (c : UpstreamCall)
    (h : (makeAuthenticatedRequest cfg now up m p b).2 = [c]) :
    c.body = b.map Json.stringify ∧
    createSignature cfg.secretKey c.headers.xAppAccessTs c.method c.path
      (c.body.getD "") = .ok c.headers.xAppAccessSig := by
  by_cases hA : jsTruthy cfg.appToken = true
  · by_cases hS : jsTruthy cfg.secretKey = true
    · rw [mar_configured cfg now up m p b hA hS] at h
      have hc : signedCall cfg now m p b = c := by
        cases hup : up (signedCall cfg now m p b) <;> rw [hup] at h <;>
          simpa using h
      rw [← hc]
      refine ⟨rfl, ?_⟩
      unfold createSignature signedCall
      rw [hS]
      cases b <;> rfl
    · simp only [Bool.not_eq_true] at hS
      obtain ⟨e, hme⟩ := mar_error cfg now up m p b (Or.inr hS)
      rw [hme] at h
      cases h
  · simp only [Bool.not_eq_true] at hA
    obtain ⟨e, hme⟩ := mar_error cfg now up m p b (Or.inl hA)
    rw [hme] at h
    cases h

/-- Witness for C10: a concrete GET with no body against the stub. -/
theorem signature_covers_transmitted_body_witness :
    (signedCall cfgEx 1700000002 "GET" "/resources/applicants/sub_1/one" none).body =
      (none : Option Json).map Json.stringify ∧
    createSignature cfgEx.secretKey
      (signedCall cfgEx 1700000002 "GET" "/resources/applicants/sub_1/one" none).headers.xAppAccessTs
      (signedCall cfgEx 1700000002 "GET" "/resources/applicants/sub_1/one" none).method
      (signedCall cfgEx 1700000002 "GET" "/resources/applicants/sub_1/one" none).path
      ((signedCall cfgEx 1700000002 "GET" "/resources/applicants/sub_1/one" none).body.getD "") =
      .ok (signedCall cfgEx 1700000002 "GET" "/resources/applicants/sub_1/one" none).headers.xAppAccessSig :=
  signature_covers_transmitted_body cfgEx 1700000002 stubUpstream "GET"
    "/resources/applicants/sub_1/one" none
    (signedCall cfgEx 1700000002 "GET" "/resources/applicants/sub_1/one" none) rfl

theorem accessToken_400 (cfg : Config) (eff : AccessTokenEffects)
    (up : Upstream) (req : AccessTokenRequestBody)
    (hu : jsTruthy req.userId = false) :
    accessTokenHandler cfg eff up req =
      ({ status := 400, body := userIdRequiredBody }, []) := by
  unfold accessTokenHandler
  rw [hu]
  rfl

theorem accessToken_cases (cfg : Config) (eff : AccessTokenEffects)
    (up : Upstream) (req : AccessTokenRequestBody)
    (hu : jsTruthy req.userId = true)
    (hA : jsTruthy cfg.appToken = true) (hS : jsTruthy cfg.secretKey = true) :
    ((accessTokenHandler cfg eff up req).2 = [atCall1 cfg eff req] ∧
     (∀ j, up (atCall1 cfg eff req) ≠ .success j) ∧
     (accessTokenHandler cfg eff up req).1.status = 500) ∨
    (∃ j1, up (atCall1 cfg eff req) = .success j1 ∧
     (accessTokenHandler cfg eff up req).2 =
       [atCall1 cfg eff req, atCall2 cfg eff req]) := by
  rw [accessToken_shape cfg eff up req hu hA hS]
  cases hup1 : up (atCall1 cfg eff req) with
  | success j1 =>
    refine Or.inr ⟨j1, rfl, ?_⟩
    cases hup2 : up (atCall2 cfg eff req) <;> rfl
  | httpError st txt =>
    refine Or.inl ⟨rfl, ?_, rfl⟩
    intro j hj
    cases hj
  | thrown msg =>
    refine Or.inl ⟨rfl, ?_, rfl⟩
    intro j hj
    cases hj

/-- C2: in the access-token flow the applicant-creation request always
precedes a token-minting request; when the applicant-creation call fails, no
further request is issued and the whole request answers 500; a token-minting
request happens only after the applicant-creation call has succeeded, and no
third request or retry ever happens. -/
theorem accessToken_ordering_abort (cfg : Config) (eff : AccessTokenEffects)
    (up : Upstream) (req : AccessTokenRequestBody) :
    (∀ c1 rest, (accessTokenHandler cfg eff up req).2 = c1 :: rest →
        c1.method = "POST" ∧
        c1.path = "/resources/applicants?levelName=" ++ atSelectedLevel cfg req) ∧
    (∀ c1 rest, (accessTokenHandler cfg eff up req).2 = c1 :: rest →
        (∀ j, up c1 ≠ .success j) →
        rest = [] ∧ (accessTokenHandler cfg eff up req).1.status = 500) ∧
    (∀ c1 c2 rest, (accessTokenHandler cfg eff up req).2 = c1 :: c2 :: rest →
        rest = [] ∧ c2.method = "POST" ∧
        c2.path = "/resources/accessTokens/sdk" ∧
        ∃ j, up c1 = .success j) := by
  by_cases hu : jsTruthy req.userId = true
  · by_cases hA : jsTruthy cfg.appToken = true
    · by_cases hS : jsTruthy cfg.secretKey = true
      · rcases accessToken_cases cfg eff up req hu hA hS with
          ⟨htr, hnos, h500⟩ | ⟨j1, hj1, htr⟩
        · refine ⟨?_, ?_, ?_⟩
          · intro c1 rest hcr
            rw [htr] at hcr
            injection hcr with h1 h2
            rw [← h1]
            exact ⟨rfl, rfl⟩
          · intro c1 rest hcr hfail
            rw [htr] at hcr
            injection hcr with h1 h2
            exact ⟨h2.symm, h500⟩
          · intro c1 c2 rest hcr
            rw [htr] at hcr
            injection hcr with h1 h2
            cases h2
        · refine ⟨?_, ?_, ?_⟩
          · intro c1 rest hcr
            rw [htr] at hcr
            injection hcr with h1 h2
            rw [← h1]
            exact ⟨rfl, rfl⟩
          · intro c1 rest hcr hfail
            rw [htr] at hcr
            injection hcr with h1 h2
            exact absurd (by rw [← h1]; exact hj1) (hfail j1)
          · intro c1 c2 rest hcr
            rw [htr] at hcr
            injection hcr with h1 h2
            injection h2 with h2a h2b
            subst h1
            subst h2a
            exact ⟨h2b.symm, rfl, rfl, ⟨j1, hj1⟩⟩
      · simp only [Bool.not_eq_true] at hS
        obtain ⟨hnil, -⟩ := accessToken_unconfigured cfg eff up req (Or.inr hS)
        refine ⟨?_, ?_, ?_⟩ <;> intro c1 <;> intro c2 <;>
          first
          | (intro hcr; rw [hnil] at hcr; cases hcr)
          | (intro rest hcr; rw [hnil] at hcr; cases hcr)
    · simp only [Bool.not_eq_true] at hA
      obtain ⟨hnil, -⟩ := accessToken_unconfigured cfg eff up req (Or.inl hA)
      refine ⟨?_, ?_, ?_⟩ <;> intro c1 <;> intro c2 <;>
        first
        | (intro hcr; rw [hnil] at hcr; cases hcr)
        | (intro rest hcr; rw [hnil] at hcr; cases hcr)
  · simp only [Bool.not_eq_true] at hu
    have hnil : (accessTokenHandler cfg eff up req).2 = [] := by
      rw [accessToken_400 cfg eff up req hu]
    refine ⟨?_, ?_, ?_⟩ <;> intro c1 <;> intro c2 <;>
      first
      | (intro hcr; rw [hnil] at hcr; cases hcr)
      | (intro rest hcr; rw [hnil] at hcr; cases hcr)

/-- Witness for C2 against a stub upstream whose applicant-creation call
fails. -/
theorem accessToken_ordering_abort_witness :
    (∀ c1 rest, (accessTokenHandler cfgEx effEx failStub ⟨some "u1", none⟩).2 = c1 :: rest →
        c1.method = "POST" ∧
        c1.path = "/resources/applicants?levelName=" ++
          atSelectedLevel cfgEx ⟨some "u1", none⟩) ∧
    (∀ c1 rest, (accessTokenHandler cfgEx effEx failStub ⟨some "u1", none⟩).2 = c1 :: rest →
        (∀ j, failStub c1 ≠ .success j) →
        rest = [] ∧
        (accessTokenHandler cfgEx effEx failStub ⟨some "u1", none⟩).1.status = 500) ∧
    (∀ c1 c2 rest,
        (accessTokenHandler cfgEx effEx failStub ⟨some "u1", none⟩).2 = c1 :: c2 :: rest →
        rest = [] ∧ c2.method = "POST" ∧
        c2.path = "/resources/accessTokens/sdk" ∧
        ∃ j, failStub c1 = .success j) :=
  accessToken_ordering_abort cfgEx effEx failStub ⟨some "u1", none⟩

/-- C3: for a non-empty userId the derived per-session identifier is exactly
`userId ++ "_" ++ millis ++ "_" ++ randomSuffix`, so it extends `userId ++ "_"`;
a successful response returns exactly this identifier in its `userId` field;
and two requests whose (millis, random suffix) environments differ (the
suffix being underscore-free alphanumeric output of `toString(36)`) derive
distinct identifiers even for the same input. -/
theorem accessToken_identifier (cfg : Config) (eff eff2 : AccessTokenEffects)
    (up : Upstream) (u : String) (lvl : Option String)
    (hu : u ≠ "")
    (hr : '_' ∉ eff.randSuffix.data) (hr2 : '_' ∉ eff2.randSuffix.data)
    (hne : (eff.nowMs, eff.randSuffix) ≠ (eff2.nowMs, eff2.randSuffix)) :
    uniqueUserId u eff.nowMs eff.randSuffix =
      u ++ "_" ++ Nat.repr eff.nowMs ++ "_" ++ eff.randSuffix ∧
    (∃ rest, uniqueUserId u eff.nowMs eff.randSuffix = u ++ "_" ++ rest) ∧
    ((accessTokenHandler cfg eff up ⟨some u, lvl⟩).1.status = 200 →
      (accessTokenHandler cfg eff up ⟨some u, lvl⟩).1.body.getField "userId" =
        .str (uniqueUserId u eff.nowMs eff.randSuffix)) ∧
    uniqueUserId u eff.nowMs eff.randSuffix ≠
      uniqueUserId u eff2.nowMs eff2.randSuffix := by
  refine ⟨rfl, ?_, ?_, ?_⟩
  · refine ⟨Nat.repr eff.nowMs ++ "_" ++ eff.randSuffix, ?_⟩
    unfold uniqueUserId
    simp [String.append_assoc]
  · intro hs
    obtain ⟨hu200, hA, hS⟩ := accessToken_ok_config cfg eff up ⟨some u, lvl⟩ hs
    have hsh := accessToken_shape cfg eff up ⟨some u, lvl⟩ hu200 hA hS
    rw [hsh] at hs ⊢
    cases hup1 : up (atCall1 cfg eff ⟨some u, lvl⟩) with
    | success j1 =>
      rw [hup1] at hs
      cases hup2 : up (atCall2 cfg eff ⟨some u, lvl⟩) with
      | success j2 => rfl
      | httpError st txt => rw [hup2] at hs; simp at hs
      | thrown msg => rw [hup2] at hs; simp at hs
    | httpError st txt => rw [hup1] at hs; simp at hs
    | thrown msg => rw [hup1] at hs; simp at hs
  · intro h
    obtain ⟨hn, hrr⟩ := uniqueUserId_inj h hr hr2
    exact hne (by rw [hn, hrr])

/-- Witness for C3 at userId alice and two concrete environments. -/
theorem accessToken_identifier_witness :
    uniqueUserId "alice" effEx.nowMs effEx.randSuffix =
      "alice" ++ "_" ++ Nat.repr effEx.nowMs ++ "_" ++ effEx.randSuffix ∧
    (∃ rest, uniqueUserId "alice" effEx.nowMs effEx.randSuffix =
      "alice" ++ "_" ++ rest) ∧
    ((accessTokenHandler cfgEx effEx stubUpstream ⟨some "alice", none⟩).1.status = 200 →
      (accessTokenHandler cfgEx effEx stubUpstream ⟨some "alice", none⟩).1.body.getField "userId" =
        .str (uniqueUserId "alice" effEx.nowMs effEx.randSuffix)) ∧
    uniqueUserId "alice" effEx.nowMs effEx.randSuffix ≠
      uniqueUserId "alice" effEx2.nowMs effEx2.randSuffix :=
  accessToken_identifier cfgEx effEx effEx2 stubUpstream "alice" none
    (by decide) (by decide) (by decide) (by decide)

/-- C5: a 200 answer of the access-token handler means both upstream calls
succeeded; the minting request was the second of the two outbound requests,
a POST to the SDK-token endpoint whose payload carries the derived
identifier, the selected level and `ttlInSecs = 1200`; and the response body
is exactly `token` from the minting response, `applicantId` from the
applicant-creation response, and the derived identifier as `userId`. -/
theorem accessToken_success_response (cfg : Config) (eff : AccessTokenEffects)
    (up : Upstream) (u : String) (lvl : Option String)
    (hs : (accessTokenHandler cfg eff up ⟨some u, lvl⟩).1.status = 200) :
    ∃ j1 j2,
      up (atCall1 cfg eff ⟨some u, lvl⟩) = .success j1 ∧
      up (atCall2 cfg eff ⟨some u, lvl⟩) = .success j2 ∧
      (accessTokenHandler cfg eff up ⟨some u, lvl⟩).2 =
        [atCall1 cfg eff ⟨some u, lvl⟩, atCall2 cfg eff ⟨some u, lvl⟩] ∧
      (atCall2 cfg eff ⟨some u, lvl⟩).method = "POST" ∧
      (atCall2 cfg eff ⟨some u, lvl⟩).path = "/resources/accessTokens/sdk" ∧
      (atCall2 cfg eff ⟨some u, lvl⟩).body = some (Json.stringify (.obj
        [("userId", .str (uniqueUserId u eff.nowMs eff.randSuffix)),
         ("levelName", .str (jsOrElse lvl (LEVEL_NAME cfg.levelNameEnv))),
         ("ttlInSecs", .num 1200)])) ∧
      (accessTokenHandler cfg eff up ⟨some u, lvl⟩).1.body = .obj
        [("token", j2.getField "token"),
         ("applicantId", j1.getField "id"),
         ("userId", .str (uniqueUserId u eff.nowMs eff.randSuffix))] := by
  obtain ⟨hu, hA, hS⟩ := accessToken_ok_config cfg eff up ⟨some u, lvl⟩ hs
  have hsh := accessToken_shape cfg eff up ⟨some u, lvl⟩ hu hA hS
  rw [hsh] at hs ⊢
  cases hup1 : up (atCall1 cfg eff ⟨some u, lvl⟩) with
  | success j1 =>
    rw [hup1] at hs
    cases hup2 : up (atCall2 cfg eff ⟨some u, lvl⟩) with
    | success j2 => exact ⟨j1, j2, rfl, rfl, rfl, rfl, rfl, rfl, rfl⟩
    | httpError st txt => rw [hup2] at hs; simp at hs
    | thrown msg => rw [hup2] at hs; simp at hs
  | httpError st txt => rw [hup1] at hs; simp at hs
  | thrown msg => rw [hup1] at hs; simp at hs

/-- Witness for C5 against the stub upstream answering an id then a token. -/
theorem accessToken_success_response_witness :
    ∃ j1 j2,
      stubUpstream (atCall1 cfgEx effEx ⟨some "u1", none⟩) = .success j1 ∧
      stubUpstream (atCall2 cfgEx effEx ⟨some "u1", none⟩) = .success j2 ∧
      (accessTokenHandler cfgEx effEx stubUpstream ⟨some "u1", none⟩).2 =
        [atCall1 cfgEx effEx ⟨some "u1", none⟩, atCall2 cfgEx effEx ⟨some "u1", none⟩] ∧
      (atCall2 cfgEx effEx ⟨some "u1", none⟩).method = "POST" ∧
      (atCall2 cfgEx effEx ⟨some "u1", none⟩).path = "/resources/accessTokens/sdk" ∧
      (atCall2 cfgEx effEx ⟨some "u1", none⟩).body = some (Json.stringify (.obj
        [("userId", .str (uniqueUserId "u1" effEx.nowMs effEx.randSuffix)),
         ("levelName", .str (jsOrElse none (LEVEL_NAME cfgEx.levelNameEnv))),
         ("ttlInSecs", .num 1200)])) ∧
      (accessTokenHandler cfgEx effEx stubUpstream ⟨some "u1", none⟩).1.body = .obj
        [("token", j2.getField "token"),
         ("applicantId", j1.getField "id"),
         ("userId", .str (uniqueUserId "u1" effEx.nowMs effEx.randSuffix))] :=
  accessToken_success_response cfgEx effEx stubUpstream "u1" none rfl

/-- C6: for a non-empty userId the refresh handler is independent of any
caller-supplied level; its single outbound request is a POST to the
SDK-token endpoint whose payload carries the userId unchanged, the
configured default level, `ttlInSecs = 1200` and an explicit empty
`applicantIdentifiers` object; on success it answers `token` and the echoed
userId. -/
theorem refresh_payload_and_response (cfg : Config) (ts : Nat) (up : Upstream)
    (u : String) (lvl lvl2 : Option String) (hu : u ≠ "")
    (hA : jsTruthy cfg.appToken = true) (hS : jsTruthy cfg.secretKey = true) :
    refreshTokenHandler cfg ts up ⟨some u, lvl⟩ =
      refreshTokenHandler cfg ts up ⟨some u, lvl2⟩ ∧
    (refreshTokenHandler cfg ts up ⟨some u, lvl⟩).2 = [rfCall cfg ts ⟨some u, lvl⟩] ∧
    (rfCall cfg ts ⟨some u, lvl⟩).method = "POST" ∧
    (rfCall cfg ts ⟨some u, lvl⟩).path = "/resources/accessTokens/sdk" ∧
    (rfCall cfg ts ⟨some u, lvl⟩).body = some (Json.stringify (.obj
      [("userId", .str u),
       ("levelName", .str (LEVEL_NAME cfg.levelNameEnv)),
       ("ttlInSecs", .num 1200),
       ("applicantIdentifiers", .obj [])])) ∧
    (∀ j, up (rfCall cfg ts ⟨some u, lvl⟩) = .success j →
      (refreshTokenHandler cfg ts up ⟨some u, lvl⟩).1 =
        { status := 200,
          body := .obj [("token", j.getField "token"), ("userId", .str u)] }) := by
  have hut : jsTruthy (AccessTokenRequestBody.mk (some u) lvl).userId = true :=
    jsTruthy_some hu
  have hsh := refresh_shape cfg ts up ⟨some u, lvl⟩ hut hA hS
  refine ⟨rfl, ?_, rfl, rfl, rfl, ?_⟩
  · rw [hsh]
    cases hup : up (rfCall cfg ts ⟨some u, lvl⟩) <;> rfl
  · intro j hj
    rw [hsh, hj]
    rfl

/-- Witness for C6 with a concrete userId and an ignored caller level. -/
theorem refresh_payload_and_response_witness :
    refreshTokenHandler cfgEx 1700000000 stubUpstream ⟨some "u1", some "other-level"⟩ =
      refreshTokenHandler cfgEx 1700000000 stubUpstream ⟨some "u1", none⟩ ∧
    (refreshTokenHandler cfgEx 1700000000 stubUpstream ⟨some "u1", some "other-level"⟩).2 =
      [rfCall cfgEx 1700000000 ⟨some "u1", some "other-level"⟩] ∧
    (rfCall cfgEx 1700000000 ⟨some "u1", some "other-level"⟩).method = "POST" ∧
    (rfCall cfgEx 1700000000 ⟨some "u1", some "other-level"⟩).path =
      "/resources/accessTokens/sdk" ∧
    (rfCall cfgEx 1700000000 ⟨some "u1", some "other-level"⟩).body =
      some (Json.stringify (.obj
        [("userId", .str "u1"),
         ("levelName", .str (LEVEL_NAME cfgEx.levelNameEnv)),
         ("ttlInSecs", .num 1200),
         ("applicantIdentifiers", .obj [])])) ∧
    (∀ j, stubUpstream (rfCall cfgEx 1700000000 ⟨some "u1", some "other-level"⟩) =
        .success j →
      (refreshTokenHandler cfgEx 1700000000 stubUpstream
          ⟨some "u1", some "other-level"⟩).1 =
        { status := 200,
          body := .obj [("token", j.getField "token"), ("userId", .str "u1")] }) :=
  refresh_payload_and_response cfgEx 1700000000 stubUpstream "u1"
    (some "other-level") none (by decide) (by decide) (by decide)

/-- C7: the status handler issues exactly one outbound request, a GET to the
subject-lookup path with no body, carrying a signature that is the Signer
output for that timestamp, method, path and empty body; on success it
relays the upstream JSON unmodified, and on upstream failure it answers 500
with a structured error/details body. -/
theorem applicant_status_relay (cfg : Config) (ts : Nat) (up : Upstream)
    (aid : String)
    (hA : jsTruthy cfg.appToken = true) (hS : jsTruthy cfg.secretKey = true) :
    (applicantStatusHandler cfg ts up aid).2 = [stCall cfg ts aid] ∧
    (stCall cfg ts aid).method = "GET" ∧
    (stCall cfg ts aid).path = "/resources/applicants/" ++ aid ++ "/one" ∧
    (stCall cfg ts aid).body = none ∧
    createSignature cfg.secretKey (Nat.repr ts) "GET"
        ("/resources/applicants/" ++ aid ++ "/one") "" =
      .ok (stCall cfg ts aid).headers.xAppAccessSig ∧
    (∀ j, up (stCall cfg ts aid) = .success j →
      (applicantStatusHandler cfg ts up aid).1 = { status := 200, body := j }) ∧
    (∀ st txt, up (stCall cfg ts aid) = .httpError st txt →
      (applicantStatusHandler cfg ts up aid).1 =
        { status := 500,
          body := .obj [("error", .str "Failed to fetch applicant"),
                        ("details", .str (fetchErrText st txt))] }) ∧
    (∀ msg, up (stCall cfg ts aid) = .thrown msg →
      (applicantStatusHandler cfg ts up aid).1 =
        { status := 500,
          body := .obj [("error", .str "Failed to fetch applicant"),
                        ("details", .str msg)] }) := by
  have hsh := status_shape cfg ts up aid hA hS
  refine ⟨?_, rfl, rfl, rfl, ?_, ?_, ?_, ?_⟩
  · rw [hsh]
    cases hup : up (stCall cfg ts aid) <;> rfl
  · unfold createSignature stCall signedCall
    rw [hS]
    rfl
  · intro j hj
    rw [hsh, hj]
  · intro st txt hj
    rw [hsh, hj]
    rfl
  · intro msg hj
    rw [hsh, hj]
    rfl

/-- Witness for C7 at a concrete applicant id. -/
theorem applicant_status_relay_witness :
    (applicantStatusHandler cfgEx 1700000000 stubUpstream "sub_1").2 =
      [stCall cfgEx 1700000000 "sub_1"] ∧
    (stCall cfgEx 1700000000 "sub_1").method = "GET" ∧
    (stCall cfgEx 1700000000 "sub_1").path = "/resources/applicants/" ++ "sub_1" ++ "/one" ∧
    (stCall cfgEx 1700000000 "sub_1").body = none ∧
    createSignature cfgEx.secretKey (Nat.repr 1700000000) "GET"
        ("/resources/applicants/" ++ "sub_1" ++ "/one") "" =
      .ok (stCall cfgEx 1700000000 "sub_1").headers.xAppAccessSig ∧
    (∀ j, stubUpstream (stCall cfgEx 1700000000 "sub_1") = .success j →
      (applicantStatusHandler cfgEx 1700000000 stubUpstream "sub_1").1 =
        { status := 200, body := j }) ∧
    (∀ st txt, stubUpstream (stCall cfgEx 1700000000 "sub_1") = .httpError st txt →
      (applicantStatusHandler cfgEx 1700000000 stubUpstream "sub_1").1 =
        { status := 500,
          body := .obj [("error", .str "Failed to fetch applicant"),
                        ("details", .str (fetchErrText st txt))] }) ∧
    (∀ msg, stubUpstream (stCall cfgEx 1700000000 "sub_1") = .thrown msg →
      (applicantStatusHandler cfgEx 1700000000 stubUpstream "sub_1").1 =
        { status := 500,
          body := .obj [("error", .str "Failed to fetch applicant"),
                        ("details", .str msg)] }) :=
  applicant_status_relay cfgEx 1700000000 stubUpstream "sub_1" (by decide) (by decide)

/-- C9: an empty-string levelName behaves exactly like an absent one — the
handler result is identical and the selected level falls back to the
configured default — while a non-empty levelName is selected verbatim and
forwarded upstream in the applicant-creation path. -/
theorem emptyLevel_falls_back (cfg : Config) (eff : AccessTokenEffects)
    (up : Upstream) (uid : Option String) (l : String) (hl : l ≠ "") :
    accessTokenHandler cfg eff up ⟨uid, some ""⟩ =
      accessTokenHandler cfg eff up ⟨uid, none⟩ ∧
    atSelectedLevel cfg ⟨uid, some ""⟩ = LEVEL_NAME cfg.levelNameEnv ∧
    atSelectedLevel cfg ⟨uid, some l⟩ = l ∧
    (∀ c rest, (accessTokenHandler cfg eff up ⟨uid, some l⟩).2 = c :: rest →
      c.path = "/resources/applicants?levelName=" ++ l) := by
  have hsel : atSelectedLevel cfg ⟨uid, some l⟩ = l := by
    unfold atSelectedLevel jsOrElse
    rw [jsTruthy_some hl]
    rfl
  refine ⟨rfl, rfl, hsel, ?_⟩
  intro c rest hcr
  by_cases hu : jsTruthy uid = true
  · by_cases hA : jsTruthy cfg.appToken = true
    · by_cases hS : jsTruthy cfg.secretKey = true
      · have hcs := accessToken_cases cfg eff up ⟨uid, some l⟩ hu hA hS
        rcases hcs with ⟨htr, -, -⟩ | ⟨j1, -, htr⟩
        · rw [htr] at hcr
          injection hcr with h1 h2
          subst h1
          show "/resources/applicants?levelName=" ++
            atSelectedLevel cfg ⟨uid, some l⟩ = _
          rw [hsel]
        · rw [htr] at hcr
          injection hcr with h1 h2
          subst h1
          show "/resources/applicants?levelName=" ++
            atSelectedLevel cfg ⟨uid, some l⟩ = _
          rw [hsel]
      · simp only [Bool.not_eq_true] at hS
        obtain ⟨hnil, -⟩ := accessToken_unconfigured cfg eff up ⟨uid, some l⟩ (Or.inr hS)
        rw [hnil] at hcr
        cases hcr
    · simp only [Bool.not_eq_true] at hA
      obtain ⟨hnil, -⟩ := accessToken_unconfigured cfg eff up ⟨uid, some l⟩ (Or.inl hA)
      rw [hnil] at hcr
      cases hcr
  · simp only [Bool.not_eq_true] at hu
    rw [accessToken_400 cfg eff up ⟨uid, some l⟩ hu] at hcr
    cases hcr

/-- Witness for C9 at a concrete non-empty level. -/
theorem emptyLevel_falls_back_witness :
    accessTokenHandler cfgEx effEx stubUpstream ⟨some "u1", some ""⟩ =
      accessTokenHandler cfgEx effEx stubUpstream ⟨some "u1", none⟩ ∧
    atSelectedLevel cfgEx ⟨some "u1", some ""⟩ = LEVEL_NAME cfgEx.levelNameEnv ∧
    atSelectedLevel cfgEx ⟨some "u1", some "custom-level"⟩ = "custom-level" ∧
    (∀ c rest,
      (accessTokenHandler cfgEx effEx stubUpstream ⟨some "u1", some "custom-level"⟩).2 =
        c :: rest →
      c.path = "/resources/applicants?levelName=" ++ "custom-level") :=
  emptyLevel_falls_back cfgEx effEx stubUpstream (some "u1") "custom-level" (by decide)

/-! ## Validation vectors for the crypto embedding -/

/-- FIPS 180-4 test vector: the SHA-256 digest of "abc". -/
theorem sha256_fips_vector :
    bytesToHex (sha256 (strBytes "abc")) =
      "ba7816bf8f01cfea414140de5dae2223b00361a396177a9cb410ff61f20015ad" := by
  decide

set_option maxRecDepth 4000 in
/-- RFC 4231 test case 2 for HMAC-SHA256 (key "Jefe"). -/
theorem hmacSha256Hex_rfc4231_vector :
    hmacSha256Hex "Jefe" "what do ya want for nothing?" =
      "5bdcc146bf60754e6a042426089575c75a003f089d2739839dec58b964ec3843" := by
  decide

set_option maxRecDepth 4000 in
/-- An end-to-end Signer vector (uppercasing included), cross-checked against
an independent HMAC-SHA256 implementation. -/
theorem createSignature_vector :
    createSignature (some "secret-key-ex") "1700000000" "post"
        "/resources/accessTokens/sdk" "\x7b\x7d" =
      .ok "968d9c1ae9ec3135bb14e8a6f58fd71f9ba15dc8ce46926a65a76ede4686f2e9" := by
  rfl

end Sumsub
